import Mathlib

/-!
Verification of the tania-core event-sourcing startup layer.

The Go source consists of `main.go` (persistence-engine selection, in-memory
storage wiring, sqlite and mysql schema bootstrap) together with the task
bounded context's domain-event type declarations.  The definitions below are a
shallow embedding of that code: each Go function becomes a Lean function over
explicit state, and each Go struct becomes a field table recording its field
names and types.  Components of the repository that are not present in the
source (the event-ledger implementation, the `config` package constants) are
modelled from the specification and marked as such in their doc comments.
-/

namespace Tania

/-! ### Event ledger (spec §4.1)

Modelled from the spec: the Event Ledger implementation (the per-aggregate
event storages created by `CreateFarmEventStorage` etc.) is not part of the
given source.  Per spec §4.1, `append` assigns the next sequence number for an
aggregate ID atomically, serialized per aggregate ID; concurrent executions
are therefore equivalent to some interleaving of the appends, which we capture
by quantifying over all traces (lists of aggregate IDs in completion order). -/

/-- A ledger is the append-ordered list of (aggregateID, sequence number)
pairs recorded so far. -/
abbrev Ledger : Type := List (String × Nat)

/-- The sequence numbers recorded for aggregate `a`, in append order. -/
def seqFor (led : Ledger) (a : String) : List Nat :=
  (led.filter (fun e => e.1 = a)).map (fun e => e.2)

/-- Append one event for aggregate `a`: the assigned sequence number is one
more than the number of events already recorded for `a` (so numbering starts
at 1). -/
def appendEvent (led : Ledger) (a : String) : Ledger × Nat :=
  let n := (led.filter (fun e => e.1 = a)).length + 1
  (led ++ [(a, n)], n)

/-- Run a trace of appends (aggregate IDs in the order the serialized appends
complete) against a starting ledger. -/
def runTraceAux (led : Ledger) : List String → Ledger
  | [] => led
  | a :: rest => runTraceAux (appendEvent led a).1 rest

/-- Run a trace of appends against the empty ledger. -/
def runTrace (t : List String) : Ledger := runTraceAux [] t

theorem filter_append_singleton (led : Ledger) (a b : String) (n : Nat) :
    (led ++ [(a, n)]).filter (fun e => e.1 = b) =
      led.filter (fun e => e.1 = b) ++ if a = b then [(a, n)] else [] := by
  rw [List.filter_append]
  by_cases h : a = b <;> simp [List.filter, h]

theorem seqFor_runTraceAux (t : List String) : ∀ (led : Ledger) (b : String),
    seqFor (runTraceAux led t) b =
      seqFor led b ++
        List.range' ((led.filter (fun e => e.1 = b)).length + 1) (t.count b) := by
  induction t with
  | nil =>
    intro led b
    simp [runTraceAux]
  | cons a rest ih =>
    intro led b
    have hcount : (a :: rest).count b = rest.count b + if a = b then 1 else 0 := by
      by_cases h : a = b <;> simp [List.count_cons, h]
    rw [runTraceAux, ih]
    by_cases h : a = b
    · subst h
      have hfilter : ((appendEvent led a).1.filter (fun e => e.1 = a)) =
          led.filter (fun e => e.1 = a) ++ [(a, (led.filter (fun e => e.1 = a)).length + 1)] := by
        simp [appendEvent, filter_append_singleton]
      have hseq : seqFor (appendEvent led a).1 a =
          seqFor led a ++ [(led.filter (fun e => e.1 = a)).length + 1] := by
        simp [seqFor, hfilter]
      rw [hseq, hfilter, hcount]
      simp [List.range'_succ]
    · have hfilter : ((appendEvent led a).1.filter (fun e => e.1 = b)) =
          led.filter (fun e => e.1 = b) := by
        simp [appendEvent, filter_append_singleton, h]
      have hseq : seqFor (appendEvent led a).1 b = seqFor led b := by
        simp [seqFor, hfilter]
      rw [hseq, hfilter, hcount]
      simp [h]

/-- C1 : for any interleaving of concurrent appends (any trace `t`) and any
aggregate ID `a`, the sequence numbers recorded for `a` are exactly
`1, 2, …, N` in order, where `N` is the number of appends to `a`: strictly
increasing, starting at 1, no gaps, no duplicates. -/
theorem ledger_seq_numbers_exact (t : List String) (a : String) :
    seqFor (runTrace t) a = List.range' 1 (t.count a) := by
  have h := seqFor_runTraceAux t [] a
  simpa [runTrace, seqFor] using h

/-! ### Task domain events

The task bounded context's event types, from the `domain` package source:
five topic-code string constants and five event structs.  Each struct is
embedded as its table of (field name, Go field type) pairs, in declaration
order, exactly as written in the source. -/

/-- The Go types appearing in the task event structs. -/
inductive GoType where
  | str         -- string
  | uuid        -- uuid.UUID
  | time        -- time.Time
  | optTime     -- *time.Time
  | taskDomain  -- TaskDomain
  | boolean     -- bool
  | optUuid     -- *uuid.UUID
deriving DecidableEq, Repr

/-- Topic code constant `TaskCreatedCode`. -/
def TaskCreatedCode : String := "TaskCreated"

/-- Topic code constant `TaskCompletedCode`. -/
def TaskCompletedCode : String := "TaskCompleted"

/-- Topic code constant `TaskCancelledCode`. -/
def TaskCancelledCode : String := "TaskCancelled"

/-- Topic code constant `TaskDueCode`. -/
def TaskDueCode : String := "TaskDue"

/-- Topic code constant `TaskModifiedCode`. -/
def TaskModifiedCode : String := "TaskModified"

/-- The complete list of task event topic codes declared in the source's
`const` block — these five and no others. -/
def taskEventCodes : List String :=
  [TaskCreatedCode, TaskCompletedCode, TaskCancelledCode, TaskDueCode, TaskModifiedCode]

/-- Fields of struct `TaskCreated`, in source order. -/
def taskCreatedFields : List (String × GoType) :=
  [("Title", .str), ("UID", .uuid), ("Description", .str), ("CreatedDate", .time),
   ("DueDate", .optTime), ("Priority", .str), ("Status", .str), ("Domain", .str),
   ("DomainDetails", .taskDomain), ("Category", .str), ("IsDue", .boolean),
   ("AssetID", .optUuid)]

/-- Fields of struct `TaskModified`, in source order. -/
def taskModifiedFields : List (String × GoType) :=
  [("UID", .uuid), ("Title", .str), ("Description", .str), ("Priority", .str),
   ("DueDate", .optTime), ("Domain", .str), ("DomainDetails", .taskDomain),
   ("Category", .str), ("AssetID", .optUuid)]

/-- Fields of struct `TaskCompleted`, in source order. -/
def taskCompletedFields : List (String × GoType) :=
  [("UID", .uuid), ("Title", .str), ("Description", .str), ("Priority", .str),
   ("DueDate", .optTime), ("Domain", .str), ("DomainDetails", .taskDomain),
   ("Category", .str), ("AssetID", .optUuid), ("CompletedDate", .optTime)]

/-- Fields of struct `TaskCancelled`, in source order. -/
def taskCancelledFields : List (String × GoType) :=
  [("UID", .uuid), ("Title", .str), ("Description", .str), ("Priority", .str),
   ("DueDate", .optTime), ("Domain", .str), ("DomainDetails", .taskDomain),
   ("Category", .str), ("AssetID", .optUuid), ("CancelledDate", .optTime)]

/-- Fields of struct `TaskDue`, in source order. -/
def taskDueFields : List (String × GoType) :=
  [("UID", .uuid), ("Title", .str), ("Description", .str), ("Priority", .str),
   ("DueDate", .optTime), ("Domain", .str), ("DomainDetails", .taskDomain),
   ("Category", .str), ("AssetID", .optUuid)]

/-- A field records when the event occurred if it is time-valued and is not
`DueDate`: `DueDate` is the task's scheduled due date, a payload field carried
by every task event (including `TaskCreated`, alongside its separate
`CreatedDate` occurrence timestamp), not the time at which the event
happened. -/
def isOccurrenceTimestamp (f : String × GoType) : Bool :=
  (f.2 = GoType.time || f.2 = GoType.optTime) && f.1 ≠ "DueDate"

/-- Whether a struct (given by its field table) carries a timestamp recording
when the event occurred. -/
def hasOccurrenceTimestamp (fields : List (String × GoType)) : Bool :=
  fields.any isOccurrenceTimestamp

/-- Whether a struct carries a field with the given name. -/
def hasField (fields : List (String × GoType)) (name : String) : Bool :=
  fields.any (fun f => f.1 = name)

/-- C4, counterexample: the claim that each of the five task event types
contains a timestamp recording when the event occurred is false —
`TaskModified` and `TaskDue` have no such field (their only time-valued field
is the `DueDate` payload, the task's scheduled due date). -/
theorem taskModified_taskDue_no_occurrence_timestamp :
    hasOccurrenceTimestamp taskModifiedFields = false ∧
      hasOccurrenceTimestamp taskDueFields = false := by
  decide

/-- C4, amended: every task event struct carries the aggregate's `UID`; the
kind is conveyed by the topic code rather than a struct field (no struct has a
`Kind` field); `TaskCreated`, `TaskCompleted` and `TaskCancelled` carry
occurrence timestamps (`CreatedDate`, `CompletedDate`, `CancelledDate`), but
`TaskModified` and `TaskDue` carry none. -/
theorem task_event_shapes :
    (∀ fields ∈ [taskCreatedFields, taskModifiedFields, taskCompletedFields,
        taskCancelledFields, taskDueFields],
      ("UID", GoType.uuid) ∈ fields ∧ hasField fields "Kind" = false) ∧
    ("CreatedDate", GoType.time) ∈ taskCreatedFields ∧
    ("CompletedDate", GoType.optTime) ∈ taskCompletedFields ∧
    ("CancelledDate", GoType.optTime) ∈ taskCancelledFields ∧
    hasOccurrenceTimestamp taskModifiedFields = false ∧
    hasOccurrenceTimestamp taskDueFields = false := by
  decide

/-- C5, counterexample: the claim that `TaskModified` has a corresponding
field for every `TaskCreated` field other than `Status` is false —
`CreatedDate` is a field of `TaskCreated` distinct from `Status`, yet
`TaskModified` has no `CreatedDate` field. -/
theorem taskModified_missing_createdDate :
    ("CreatedDate", GoType.time) ∈ taskCreatedFields ∧
      "CreatedDate" ≠ "Status" ∧
      hasField taskModifiedFields "CreatedDate" = false := by
  decide

/-- C5, amended: `TaskModified` has no `Status` field, and every field of
`TaskModified` appears in `TaskCreated` with the same type; but the
`TaskCreated` fields missing from `TaskModified` are exactly `CreatedDate`,
`Status` and `IsDue` — not `Status` alone. -/
theorem taskModified_vs_taskCreated :
    hasField taskModifiedFields "Status" = false ∧
    (∀ f ∈ taskModifiedFields, f ∈ taskCreatedFields) ∧
    (taskCreatedFields.filter
        (fun f => !(hasField taskModifiedFields f.1))).map Prod.fst =
      ["CreatedDate", "Status", "IsDue"] := by
  decide

/-- C6 : the task event topic codes are exactly the five strings
`TaskCreated`, `TaskCompleted`, `TaskCancelled`, `TaskDue`, `TaskModified`:
each constant equals its string, the declared code list has these five
members and no others, and the codes are pairwise distinct. -/
theorem task_event_codes_exact :
    TaskCreatedCode = "TaskCreated" ∧
    TaskCompletedCode = "TaskCompleted" ∧
    TaskCancelledCode = "TaskCancelled" ∧
    TaskDueCode = "TaskDue" ∧
    TaskModifiedCode = "TaskModified" ∧
    taskEventCodes = ["TaskCreated", "TaskCompleted", "TaskCancelled",
      "TaskDue", "TaskModified"] ∧
    taskEventCodes.Nodup := by
  refine ⟨rfl, rfl, rfl, rfl, rfl, rfl, ?_⟩
  decide

/-! ### Schema bootstrap (`initSqlite`, `initMysql`)

The Go functions return only a `*sql.DB` handle (no error value); the only
way an error escapes them is a panic, modelled as `Option.none`.  The
database environment is abstracted by booleans for the open/read steps, the
set of existing tables for the sqlite sentinel probe, and a per-statement
success predicate for the mysql transaction.  DDL text is embedded as
`List Char` so that the split/trim computations reduce structurally. -/

/-- The sentinel table `initSqlite` probes for in `sqlite_master`. -/
def sqliteSentinelTable : String := "FARM_READ"

/-- Outcome of `initSqlite` when it does not panic. -/
structure SqliteInit where
  /-- the function issued the `SELECT name FROM sqlite_master …` probe -/
  probedSentinel : Bool
  /-- the DDL script was executed against the database -/
  ddlExecuted : Bool
  /-- the `*sql.DB` handle was returned to the caller -/
  handleReturned : Bool
  /-- an error value was surfaced to the caller (the Go return type is
  `*sql.DB` alone, so this is false on every non-panicking path) -/
  errorReported : Bool
deriving DecidableEq, Repr

/-- Embedding of `initSqlite`: open the database (panic on failure), probe
`sqlite_master` for the sentinel table; when the probe scan errors (no such
table), read the DDL file (panic on failure) and execute it (panic on
failure).  `none` models a panic aborting startup. -/
def initSqlite (openOk : Bool) (tables : List String) (readOk : Bool)
    (execOk : Bool) : Option SqliteInit :=
  if openOk then
    if tables.contains sqliteSentinelTable then
      some { probedSentinel := true, ddlExecuted := false,
             handleReturned := true, errorReported := false }
    else if readOk then
      if execOk then
        some { probedSentinel := true, ddlExecuted := true,
               handleReturned := true, errorReported := false }
      else none
    else none
  else none

/-- Whitespace as trimmed by `strings.TrimSpace` (the white space characters
occurring in DDL scripts). -/
def isSpaceChar (c : Char) : Bool :=
  c = ' ' || c = '\t' || c = '\n' || c = '\r'

/-- Go `strings.Split(s, ";")` for the one-character separator: the
fragments of `s` between consecutive semicolons (empty string splits to one
empty fragment). -/
def splitSemi : List Char → List (List Char)
  | [] => [[]]
  | c :: rest =>
    match splitSemi rest with
    | [] => [[]]
    | h :: t => if c = ';' then [] :: h :: t else (c :: h) :: t

/-- Go `len(strings.TrimSpace(v)) > 0`: a fragment is nonblank exactly when
it contains a non-whitespace character. -/
def nonblank (v : List Char) : Bool := v.any (fun c => !isSpaceChar c)

/-- The statement loop of `initMysql`: iterate over the split fragments in
order; pass each nonblank fragment (untrimmed, as in the source) to
`tx.Exec`; on the first execution error, stop (the Go code rolls back and
returns).  Returns the fragments actually executed, in order, and whether
every execution succeeded. -/
def execStmts (execOk : List Char → Bool) : List (List Char) → List (List Char) × Bool
  | [] => ([], true)
  | v :: rest =>
    if nonblank v then
      if execOk v then
        let r := execStmts execOk rest
        (v :: r.1, r.2)
      else ([v], false)
    else execStmts execOk rest

/-- Outcome of `initMysql` when it does not panic. -/
structure MysqlInit where
  /-- the function issued a sentinel-table existence probe (it never does) -/
  probedSentinel : Bool
  /-- fragments passed to `tx.Exec`, in order -/
  executedStmts : List (List Char)
  /-- the transaction was committed -/
  committed : Bool
  /-- the transaction was rolled back -/
  rolledBack : Bool
  /-- the `*sql.DB` handle was returned to the caller -/
  handleReturned : Bool
  /-- an error value was surfaced to the caller (the Go return type is
  `*sql.DB` alone, so this is false on every non-panicking path) -/
  errorReported : Bool
deriving DecidableEq, Repr

/-- Embedding of `initMysql`: open the connection (panic on failure), read
the DDL file (panic on failure), split it on `";"`, begin a transaction and
execute every nonblank fragment in order; on the first failing `tx.Exec`
roll back and return the handle with no error; if all succeed, commit and
return the handle.  `none` models a panic aborting startup. -/
def initMysql (openOk readOk : Bool) (ddl : List Char)
    (execOk : List Char → Bool) : Option MysqlInit :=
  if openOk then
    if readOk then
      let splitted := splitSemi ddl
      let r := execStmts execOk splitted
      some { probedSentinel := false, executedStmts := r.1,
             committed := r.2, rolledBack := !r.2,
             handleReturned := true, errorReported := false }
    else none
  else none

/-- A one-statement DDL script, standing for a schema-definition script run
against a database whose tables already exist (so executing it fails). -/
def ddlSample : List Char := "CREATE TABLE FARM_READ (ID INT)".data

/-- A second one-statement DDL script, for the error-propagation
counterexample. -/
def ddlSample2 : List Char := "CREATE TABLE TASK_READ (ID INT)".data

theorem execStmts_characterization (execOk : List Char → Bool) :
    ∀ l : List (List Char),
      execStmts execOk l =
        ((l.filter nonblank).takeWhile execOk ++
          ((l.filter nonblank).dropWhile execOk).take 1,
         (l.filter nonblank).all execOk) := by
  intro l
  induction l with
  | nil => simp [execStmts]
  | cons v rest ih =>
    by_cases hb : nonblank v
    · by_cases he : execOk v
      · simp [execStmts, hb, he, ih, List.takeWhile_cons, List.dropWhile_cons]
      · simp [execStmts, hb, he, List.takeWhile_cons, List.dropWhile_cons]
    · simp [execStmts, hb, ih]

/-- C2, counterexample: against an already-initialized database (every DDL
statement fails, as `CREATE TABLE` does when the table exists), `initMysql`
performs no sentinel-table probe and still passes the DDL statement to the
database — refuting the claim that both non-memory engines probe a sentinel
table and skip the DDL. -/
theorem initMysql_always_runs_ddl_counterexample :
    initMysql true true ddlSample (fun _ => false) =
      some { probedSentinel := false, executedStmts := [ddlSample],
             committed := false, rolledBack := true,
             handleReturned := true, errorReported := false } := by
  decide

/-- C2, amended: only the sqlite engine gates the DDL on a sentinel probe —
`initSqlite` probes for `FARM_READ` and, when the table is present, skips
the DDL — while `initMysql` never probes and attempts the DDL statements on
every startup, inside a transaction rolled back when any statement fails. -/
theorem schema_bootstrap_sentinel (tables : List String)
    (readOk execOk1 : Bool) (ddl : List Char) (execOk : List Char → Bool)
    (hsent : tables.contains sqliteSentinelTable = true) :
    initSqlite true tables readOk execOk1 =
      some { probedSentinel := true, ddlExecuted := false,
             handleReturned := true, errorReported := false } ∧
    initMysql true true ddl execOk =
      some { probedSentinel := false,
             executedStmts :=
               ((splitSemi ddl).filter nonblank).takeWhile execOk ++
                 (((splitSemi ddl).filter nonblank).dropWhile execOk).take 1,
             committed := ((splitSemi ddl).filter nonblank).all execOk,
             rolledBack := !((splitSemi ddl).filter nonblank).all execOk,
             handleReturned := true, errorReported := false } := by
  have hsent2 : sqliteSentinelTable ∈ tables := List.mem_of_elem_eq_true hsent
  constructor
  · simp [initSqlite, hsent2]
  · simp [initMysql, execStmts_characterization]

/-- C2, amended, witness at a concrete input: sentinel present, one-statement
script, every execution succeeding. -/
theorem schema_bootstrap_sentinel_witness :
    initSqlite true [sqliteSentinelTable] true true =
      some { probedSentinel := true, ddlExecuted := false,
             handleReturned := true, errorReported := false } ∧
    initMysql true true ddlSample (fun _ => true) =
      some { probedSentinel := false,
             executedStmts :=
               ((splitSemi ddlSample).filter nonblank).takeWhile (fun _ => true) ++
                 (((splitSemi ddlSample).filter nonblank).dropWhile (fun _ => true)).take 1,
             committed := ((splitSemi ddlSample).filter nonblank).all (fun _ => true),
             rolledBack := !((splitSemi ddlSample).filter nonblank).all (fun _ => true),
             handleReturned := true, errorReported := false } :=
  schema_bootstrap_sentinel [sqliteSentinelTable] true true ddlSample
    (fun _ => true) (by decide)

/-- C3, counterexample: when the engine cannot accept writes during mysql
initialization (the `tx.Exec` of the DDL statement fails), `initMysql` does
not panic and surfaces no error: it rolls back, returns the handle, and
startup continues — the error is silently dropped, refuting the claim that
such errors are always propagated or abort startup. -/
theorem initMysql_swallows_exec_error_counterexample :
    initMysql true true ddlSample2 (fun _ => false) =
      some { probedSentinel := false, executedStmts := [ddlSample2],
             committed := false, rolledBack := true,
             handleReturned := true, errorReported := false } := by
  decide

/-- C3, amended: `initSqlite` aborts startup (panics) when the DDL read or
its execution fails, and `initMysql` aborts when the connection open or the
DDL read fails; but a failing DDL statement execution inside `initMysql`'s
transaction is silently swallowed — the transaction is rolled back, the
handle is returned, no error is reported, and startup continues. -/
theorem init_error_propagation (tables : List String) (ddl : List Char)
    (execOk : List Char → Bool)
    (hsent : tables.contains sqliteSentinelTable = false) :
    initSqlite true tables true false = none ∧
    initSqlite true tables false true = none ∧
    initMysql false true ddl execOk = none ∧
    initMysql true false ddl execOk = none ∧
    ∀ m, initMysql true true ddl execOk = some m →
      m.errorReported = false ∧ m.handleReturned = true := by
  have hsent2 : sqliteSentinelTable ∉ tables := by
    intro hmem
    have : tables.contains sqliteSentinelTable = true :=
      List.elem_eq_true_of_mem hmem
    rw [this] at hsent
    cases hsent
  refine ⟨by simp [initSqlite, hsent2], by simp [initSqlite, hsent2],
    by simp [initMysql], by simp [initMysql], ?_⟩
  intro m hm
  simp only [initMysql, if_true, Option.some.injEq] at hm
  rw [← hm]
  exact ⟨rfl, rfl⟩

/-- C3, amended, witness at a concrete input: no tables exist, a
one-statement script whose execution fails. -/
theorem init_error_propagation_witness :
    initSqlite true [] true false = none ∧
    initSqlite true [] false true = none ∧
    initMysql false true ddlSample2 (fun _ => false) = none ∧
    initMysql true false ddlSample2 (fun _ => false) = none ∧
    ∀ m, initMysql true true ddlSample2 (fun _ => false) = some m →
      m.errorReported = false ∧ m.handleReturned = true :=
  init_error_propagation [] ddlSample2 (fun _ => false) (by decide)

/-- C10 : mysql schema bootstrap is atomic and non-fatal on failure: for any
DDL text and any statement-success behaviour, `initMysql` (with the
connection open and the DDL file read) returns the handle without panicking
and with no error value; the transaction commits exactly when every nonblank
statement succeeds, rolls back otherwise, and the statements passed to
`tx.Exec` stop at the first failure (the successful prefix plus the failing
statement), so no later statement is executed. -/
theorem initMysql_atomic (ddl : List Char) (execOk : List Char → Bool) :
    initMysql true true ddl execOk =
      some { probedSentinel := false,
             executedStmts :=
               ((splitSemi ddl).filter nonblank).takeWhile execOk ++
                 (((splitSemi ddl).filter nonblank).dropWhile execOk).take 1,
             committed := ((splitSemi ddl).filter nonblank).all execOk,
             rolledBack := !((splitSemi ddl).filter nonblank).all execOk,
             handleReturned := true, errorReported := false } := by
  simp [initMysql, execStmts_characterization]

/-! ### Configuration and startup wiring (`initConfig`, `initInMemory`, `main`)

The `configure` package resolves each key against a list of sources in
order (environment, flags, optional `conf.json`), falling back to the
declared default when no source supplies the key.  Storage instances are
Go pointers; we model each `Create*Storage()` call as allocating a fresh
handle from a counter, so two handles are equal exactly when they are the
same instance. -/

/-- Configuration key of the persistence engine. -/
def taniaPersistanceEngineKey : String := "tania_persistance_engine"

/-- The declared default of `tania_persistance_engine` in `initConfig`. -/
def defaultPersistanceEngine : String := "inmemory"

/-- Resolution of one configuration key: the first source holding the key
wins; with no source holding it, the declared default applies. -/
def configLookup (sources : List (String → Option String))
    (key dflt : String) : String :=
  match sources with
  | [] => dflt
  | s :: rest =>
    match s key with
    | some v => v
    | none => configLookup rest key dflt

/-- The engine value `initConfig` yields for the given sources. -/
def resolvePersistanceEngine (sources : List (String → Option String)) : String :=
  configLookup sources taniaPersistanceEngineKey defaultPersistanceEngine

/-- Modelled from the spec: the `config` package's engine-code constants
(`config.DB_SQLITE`) are not under the given source; spec §6 names the
recognized engines `{inmemory, sqlite-equivalent, relational client/server}`
and `initConfig`'s option text lists `inmemory, sqlite`. -/
def DB_SQLITE : String := "sqlite"

/-- Modelled from the spec: the `config` package's `config.DB_MYSQL`
constant, the relational client/server engine code. -/
def DB_MYSQL : String := "mysql"

/-- The thirteen in-memory storages `initInMemory` creates. -/
inductive StorageKind where
  | farmEvent | farmRead | areaEvent | areaRead
  | reservoirEvent | reservoirRead | materialEvent | materialRead
  | cropEvent | cropRead | cropActivity | taskEvent | taskRead
deriving DecidableEq, Repr

/-- A storage instance: a Go pointer, modelled as kind plus allocation
number; two handles are the same instance exactly when they are equal. -/
structure Handle where
  kind : StorageKind
  alloc : Nat
deriving DecidableEq, Repr

/-- The `InMemory` struct of `main.go`: one handle per storage field. -/
structure InMemory where
  farmEventStorage : Handle
  farmReadStorage : Handle
  areaEventStorage : Handle
  areaReadStorage : Handle
  reservoirEventStorage : Handle
  reservoirReadStorage : Handle
  materialEventStorage : Handle
  materialReadStorage : Handle
  cropEventStorage : Handle
  cropReadStorage : Handle
  cropActivityStorage : Handle
  taskEventStorage : Handle
  taskReadStorage : Handle
deriving DecidableEq, Repr

/-- Embedding of `initInMemory`: every storage is created (allocated) anew,
one `Create*Storage()` call per field. -/
def initInMemory : InMemory :=
  { farmEventStorage := ⟨.farmEvent, 0⟩
    farmReadStorage := ⟨.farmRead, 1⟩
    areaEventStorage := ⟨.areaEvent, 2⟩
    areaReadStorage := ⟨.areaRead, 3⟩
    reservoirEventStorage := ⟨.reservoirEvent, 4⟩
    reservoirReadStorage := ⟨.reservoirRead, 5⟩
    materialEventStorage := ⟨.materialEvent, 6⟩
    materialReadStorage := ⟨.materialRead, 7⟩
    cropEventStorage := ⟨.cropEvent, 8⟩
    cropReadStorage := ⟨.cropRead, 9⟩
    cropActivityStorage := ⟨.cropActivity, 10⟩
    taskEventStorage := ⟨.taskEvent, 11⟩
    taskReadStorage := ⟨.taskRead, 12⟩ }

/-- The kind of SQL database opened by the engine switch. -/
inductive DBKind where
  | sqlite | mysql
deriving DecidableEq, Repr

/-- Arguments `main` passes to `assetsserver.NewFarmServer`, in order. -/
structure FarmServerArgs where
  db : Option DBKind
  farmEventStorage : Handle
  farmReadStorage : Handle
  areaEventStorage : Handle
  areaReadStorage : Handle
  reservoirEventStorage : Handle
  reservoirReadStorage : Handle
  materialEventStorage : Handle
  materialReadStorage : Handle
  cropReadStorage : Handle
  bus : Nat
deriving DecidableEq, Repr

/-- Arguments `main` passes to `taskserver.NewTaskServer`, in order. -/
structure TaskServerArgs where
  db : Option DBKind
  bus : Nat
  cropReadStorage : Handle
  areaReadStorage : Handle
  materialReadStorage : Handle
  reservoirReadStorage : Handle
  taskEventStorage : Handle
  taskReadStorage : Handle
deriving DecidableEq, Repr

/-- Arguments `main` passes to `growthserver.NewGrowthServer`, in order. -/
structure GrowthServerArgs where
  db : Option DBKind
  bus : Nat
  cropEventStorage : Handle
  cropReadStorage : Handle
  cropActivityStorage : Handle
  areaReadStorage : Handle
  materialReadStorage : Handle
  farmReadStorage : Handle
deriving DecidableEq, Repr

/-- The state `main` builds before mounting routes. -/
structure Startup where
  inMem : InMemory
  db : Option DBKind
  bus : Nat
  farmArgs : FarmServerArgs
  taskArgs : TaskServerArgs
  growthArgs : GrowthServerArgs
deriving DecidableEq, Repr

/-- Embedding of `main` up to server construction: `initInMemory` runs
unconditionally; the engine switch has cases only for `config.DB_SQLITE`
and `config.DB_MYSQL` and no default branch, so for any other engine value
the `*sql.DB` handle stays nil (`none`); one `EventBus.New()` instance is
created; the three servers are constructed over that single bus and the
single `InMemory` value's storages, with the argument lists of the
source. -/
def mainStartup (engine : String) : Startup :=
  let inMem := initInMemory
  let db : Option DBKind :=
    if engine = DB_SQLITE then some .sqlite
    else if engine = DB_MYSQL then some .mysql
    else none
  let bus : Nat := 13
  { inMem := inMem
    db := db
    bus := bus
    farmArgs :=
      { db := db
        farmEventStorage := inMem.farmEventStorage
        farmReadStorage := inMem.farmReadStorage
        areaEventStorage := inMem.areaEventStorage
        areaReadStorage := inMem.areaReadStorage
        reservoirEventStorage := inMem.reservoirEventStorage
        reservoirReadStorage := inMem.reservoirReadStorage
        materialEventStorage := inMem.materialEventStorage
        materialReadStorage := inMem.materialReadStorage
        cropReadStorage := inMem.cropReadStorage
        bus := bus }
    taskArgs :=
      { db := db
        bus := bus
        cropReadStorage := inMem.cropReadStorage
        areaReadStorage := inMem.areaReadStorage
        materialReadStorage := inMem.materialReadStorage
        reservoirReadStorage := inMem.reservoirReadStorage
        taskEventStorage := inMem.taskEventStorage
        taskReadStorage := inMem.taskReadStorage }
    growthArgs :=
      { db := db
        bus := bus
        cropEventStorage := inMem.cropEventStorage
        cropReadStorage := inMem.cropReadStorage
        cropActivityStorage := inMem.cropActivityStorage
        areaReadStorage := inMem.areaReadStorage
        materialReadStorage := inMem.materialReadStorage
        farmReadStorage := inMem.farmReadStorage } }

/-- C7 : the in-memory engine is the zero-configuration default and is
always available: when no configuration source supplies the engine key the
resolved engine is `inmemory`, and whatever engine is configured, `main`
constructs the full set of in-memory event and read storages (the
`Startup`'s `inMem` is exactly `initInMemory`'s thirteen storages). -/
theorem inmemory_default_and_always_initialized
    (sources : List (String → Option String))
    (hnone : ∀ s ∈ sources, s taniaPersistanceEngineKey = none) :
    resolvePersistanceEngine sources = "inmemory" ∧
    ∀ engine : String, (mainStartup engine).inMem = initInMemory := by
  constructor
  · induction sources with
    | nil => rfl
    | cons s rest ih =>
      have hs : s taniaPersistanceEngineKey = none := hnone s (by simp)
      have hrest : ∀ s ∈ rest, s taniaPersistanceEngineKey = none :=
        fun s hmem => hnone s (by simp [hmem])
      simp only [resolvePersistanceEngine, configLookup, hs] at ih ⊢
      exact ih hrest
  · intro engine
    rfl

/-- C7, witness at a concrete input: no configuration sources at all. -/
theorem inmemory_default_and_always_initialized_witness :
    resolvePersistanceEngine [] = "inmemory" ∧
    ∀ engine : String, (mainStartup engine).inMem = initInMemory :=
  inmemory_default_and_always_initialized [] (by intro s hs; cases hs)

/-- C8 : for every engine value other than the sqlite and mysql codes —
including the default `inmemory` — the switch opens no SQL database and the
nil `*sql.DB` handle is passed to all three bounded-context servers, with
startup proceeding to server construction. -/
theorem non_sql_engine_db_nil (engine : String)
    (hs : engine ≠ DB_SQLITE) (hm : engine ≠ DB_MYSQL) :
    (mainStartup engine).db = none ∧
    (mainStartup engine).farmArgs.db = none ∧
    (mainStartup engine).taskArgs.db = none ∧
    (mainStartup engine).growthArgs.db = none := by
  simp [mainStartup, hs, hm]

/-- C8, witness at the default engine value. -/
theorem non_sql_engine_db_nil_witness :
    (mainStartup "inmemory").db = none ∧
    (mainStartup "inmemory").farmArgs.db = none ∧
    (mainStartup "inmemory").taskArgs.db = none ∧
    (mainStartup "inmemory").growthArgs.db = none :=
  non_sql_engine_db_nil "inmemory" (by decide) (by decide)

/-- C9 : the three bounded-context servers are constructed over the single
shared `EventBus` instance and over shared in-memory read storages: the same
`cropReadStorage` value goes to the farm, task and growth servers, the same
`areaReadStorage` and `materialReadStorage` to the farm and task servers
(and to the growth server as well), and all three receive the one bus. -/
theorem servers_share_bus_and_read_storages (engine : String) :
    ((mainStartup engine).farmArgs.bus = (mainStartup engine).bus ∧
     (mainStartup engine).taskArgs.bus = (mainStartup engine).bus ∧
     (mainStartup engine).growthArgs.bus = (mainStartup engine).bus) ∧
    ((mainStartup engine).farmArgs.cropReadStorage =
        (mainStartup engine).taskArgs.cropReadStorage ∧
     (mainStartup engine).taskArgs.cropReadStorage =
        (mainStartup engine).growthArgs.cropReadStorage) ∧
    ((mainStartup engine).farmArgs.areaReadStorage =
        (mainStartup engine).taskArgs.areaReadStorage ∧
     (mainStartup engine).taskArgs.areaReadStorage =
        (mainStartup engine).growthArgs.areaReadStorage) ∧
    ((mainStartup engine).farmArgs.materialReadStorage =
        (mainStartup engine).taskArgs.materialReadStorage ∧
     (mainStartup engine).taskArgs.materialReadStorage =
        (mainStartup engine).growthArgs.materialReadStorage) := by
  refine ⟨⟨rfl, rfl, rfl⟩, ⟨rfl, rfl⟩, ⟨rfl, rfl⟩, rfl, rfl⟩

end Tania
